import Mathlib

/- Shallow embedding of scripts/summarizeIntermittens.py from the h2o-3
   repository.  The script is Python 2.  Python values are modelled by
   PyVal; Python dicts (all keys in this program are strings) are modelled
   as association lists in insertion order; an uncaught Python exception is
   modelled by PyErr.  A statement that mutates global state is modelled as
   a function from the state to a PyResult, which carries the final state
   also in the error case, because a Python exception leaves the mutations
   already performed in place. -/

inductive PyErr where
  | keyError : String → PyErr
  | indexError : PyErr
  | typeError : PyErr
  | attributeError : PyErr
  | valueError : PyErr

inductive PyVal where
  | int : Int → PyVal
  | str : String → PyVal
  | list : List PyVal → PyVal
  | dict : List (String × PyVal) → PyVal

abbrev PyDict := List (String × PyVal)

/- Python dict lookup: first (and only) binding of the key. -/
def dictGet? : PyDict → String → Option PyVal
  | [], _ => none
  | (k2, v) :: rest, k => if k2 = k then some v else dictGet? rest k

/- Python dict item assignment: replace in place, else append at the end
   (insertion order, as a Python dict). -/
def dictSet : PyDict → String → PyVal → PyDict
  | [], k, v => [(k, v)]
  | (k2, w) :: rest, k, v =>
    if k2 = k then (k2, v) :: rest else (k2, w) :: dictSet rest k v

/- Python dict.keys() as a list of strings. -/
def dictKeys (d : PyDict) : List String := d.map Prod.fst

def listGet? : List PyVal → Nat → Option PyVal
  | [], _ => none
  | x :: _, 0 => some x
  | _ :: xs, Nat.succ i => listGet? xs i

def listSet : List PyVal → Nat → PyVal → List PyVal
  | [], _, _ => []
  | _ :: xs, 0, e => e :: xs
  | x :: xs, Nat.succ i, e => x :: listSet xs i e

/- Python len(). -/
def pyLen : PyVal → Except PyErr Nat
  | .list xs => .ok xs.length
  | .str s => .ok s.length
  | .dict d => .ok d.length
  | .int _ => .error .typeError

/- Python iteration (for x in v): lists yield elements, strings yield
   one-character strings, dicts yield their keys, an int is not iterable. -/
def pyIter : PyVal → Except PyErr (List PyVal)
  | .list xs => .ok xs
  | .str s => .ok (s.toList.map (fun c => PyVal.str c.toString))
  | .dict d => .ok (d.map (fun kv => PyVal.str kv.1))
  | .int _ => .error .typeError

/- Python binary +, as used by the += on FailureCount: int+int, str+str and
   list+list succeed, every mixed combination raises TypeError. -/
def pyAdd : PyVal → PyVal → Except PyErr PyVal
  | .int a, .int b => .ok (.int (a + b))
  | .str a, .str b => .ok (.str (a ++ b))
  | .list a, .list b => .ok (.list (a ++ b))
  | _, _ => .error .typeError

/- Python subscription container[key]. -/
def pySubscript (container : PyVal) (key : PyVal) : Except PyErr PyVal :=
  match container, key with
  | .dict d, .str k =>
    match dictGet? d k with
    | some v => .ok v
    | none => .error (.keyError k)
  | .dict _, .int i => .error (.keyError (toString i))
  | .dict _, _ => .error .typeError
  | .list xs, .int i =>
    let j : Int := if i < 0 then i + Int.ofNat xs.length else i
    if j < 0 then .error .indexError
    else
      match listGet? xs j.toNat with
      | some v => .ok v
      | none => .error .indexError
  | .list _, _ => .error .typeError
  | .str s, .int i =>
    let j : Int := if i < 0 then i + Int.ofNat s.length else i
    if j < 0 then .error .indexError
    else
      match s.toList.get? j.toNat with
      | some c => .ok (.str c.toString)
      | none => .error .indexError
  | .str _, _ => .error .typeError
  | .int _, _ => .error .typeError

def pyGetItemStr (v : PyVal) (k : String) : Except PyErr PyVal :=
  pySubscript v (PyVal.str k)

/- d[k1][i], as in temp_dict["TestName"][index]. -/
def pySub2 (d : PyVal) (k : String) (i : PyVal) : Except PyErr PyVal :=
  match pyGetItemStr d k with
  | .error e => .error e
  | .ok v => pySubscript v i

/- Python 2 comparison v >= n for an int n on the right: ints compare by
   value; a cross-type comparison in Python 2 orders by type name, so a
   list or a str is greater than any int and a dict is smaller. -/
def pyGeInt : PyVal → Int → Bool
  | .int a, b => decide (b ≤ a)
  | .list _, _ => true
  | .str _, _ => true
  | .dict _, _ => false

/- Python 2 strict order between two values, used by min(); value order on
   two ints or two strs, Python 2 type-name order across types (dict < int
   < list < str); same-type lists or dicts are approximated by length
   (unreachable in this program, whose min() is only over numbers). -/
def typeRank : PyVal → Nat
  | .dict _ => 0
  | .int _ => 1
  | .list _ => 2
  | .str _ => 3

def pyLtB : PyVal → PyVal → Bool
  | .int a, .int b => decide (a < b)
  | .str a, .str b => decide (a < b)
  | .list a, .list b => decide (a.length < b.length)
  | .dict a, .dict b => decide (a.length < b.length)
  | a, b => decide (typeRank a < typeRank b)

/- Python min(v): leftmost minimal element of a nonempty iterable. -/
def pyMin (v : PyVal) : Except PyErr PyVal :=
  match pyIter v with
  | .error e => .error e
  | .ok [] => .error .valueError
  | .ok (x :: xs) => .ok (xs.foldl (fun m y => if pyLtB y m then y else m) x)

/- Equality test of a Python value against a string, as used by the
   membership test testName in summary_dict.keys(): only equal strings
   compare equal, a non-str value is unequal to every key (no error). -/
def strKeyEq (v : PyVal) (k : String) : Bool :=
  match v with
  | .str s => decide (s = k)
  | _ => false

/- The result of running one Python statement sequence from a state of type
   sigma: either a value with the final state, or an uncaught exception
   together with the state at the time the exception was raised (the
   mutations performed up to that point persist). -/

inductive PyResult (σ : Type) (α : Type) where
  | ok : α → σ → PyResult σ α
  | error : PyErr → σ → PyResult σ α

abbrev PyM (σ : Type) (α : Type) : Type := σ → PyResult σ α

def PyResult.stateOf : PyResult σ α → σ
  | .ok _ s => s
  | .error _ s => s

def PyM.bind (m : PyM σ α) (f : α → PyM σ β) : PyM σ β := fun s =>
  match m s with
  | .ok a s2 => f a s2
  | .error e s2 => .error e s2

/- Sequencing of two statements. -/
def pseq (m1 : PyM σ Unit) (m2 : PyM σ Unit) : PyM σ Unit := fun s =>
  match m1 s with
  | .ok _ s2 => m2 s2
  | .error e s2 => .error e s2

def pySkip : PyM σ Unit := fun s => .ok () s

def pyGetState : PyM σ σ := fun s => .ok s s

/- A pure (read-only) expression evaluated inside a statement: an error
   leaves the state unchanged. -/
def liftE (x : Except PyErr α) : PyM σ α := fun s =>
  match x with
  | .ok a => .ok a s
  | .error e => .error e s

/- A Python for loop over an already produced list of iteration values. -/
def pyForLoop (body : PyVal → PyM σ Unit) : List PyVal → PyM σ Unit
  | [] => pySkip
  | v :: rest => pseq (body v) (pyForLoop body rest)

/- The global state of the script: the two module-level dictionaries, the
   lines printed so far (a print of the report line is recorded as the
   triple of the three formatted values; time.ctime and the format string
   are presentation only), and the dict pickled to the output file. -/

structure PyState where
  g_summary_dict_all : PyDict
  g_summary_dict_intermittents : PyDict
  output : List (PyVal × PyVal × PyVal)
  saved : Option PyDict

/- Which of the two global dicts a summary_dict parameter aliases.  The
   two call sites pass g_summary_dict_all and g_summary_dict_intermittents
   respectively; passing the selector models the aliasing exactly. -/
inductive Target where
  | all : Target
  | intermittents : Target

def getDict (s : PyState) : Target → PyDict
  | .all => s.g_summary_dict_all
  | .intermittents => s.g_summary_dict_intermittents

def setDict (s : PyState) : Target → PyDict → PyState
  | .all, d => { s with g_summary_dict_all := d }
  | .intermittents, d => { s with g_summary_dict_intermittents := d }

/- Run a statement that mutates only the summary_dict parameter on the
   global dict it aliases. -/
def onTarget (t : Target) (m : PyM PyDict Unit) : PyM PyState Unit := fun s =>
  match m (getDict s t) with
  | .ok _ d2 => .ok () (setDict s t d2)
  | .error e d2 => .error e (setDict s t d2)

def initialState : PyState :=
  { g_summary_dict_all := [], g_summary_dict_intermittents := [],
    output := [], saved := none }

/- init_intermittents_dict (lines 43-50): g_summary_dict_intermittents
   receives the keys "TestName" and "TestInfo", both empty lists. -/
def init_intermittents_dict : PyM PyState Unit := fun s =>
  .ok () { s with g_summary_dict_intermittents :=
    (dictSet (dictSet s.g_summary_dict_intermittents "TestName" (PyVal.list []))
      "TestInfo" (PyVal.list [])) }

/- The statement summary_dict["TestInfo"].append(dict()) (line 152):
   KeyError when the key is absent (this is what happens on
   g_summary_dict_all, which never receives a "TestInfo" key),
   AttributeError when the value is not a list. -/
def appendTestInfoDict : PyM PyDict Unit := fun sd =>
  match dictGet? sd "TestInfo" with
  | none => .error (.keyError "TestInfo") sd
  | some (.list xs) =>
    .ok () (dictSet sd "TestInfo" (.list (xs ++ [.dict []])))
  | some _ => .error .attributeError sd

/- The statement summary_dict["TestInfo"][idx][k] = v (lines 153-159). -/
def setEntryField (idx : Nat) (k : String) (v : PyVal) : PyM PyDict Unit :=
  fun sd =>
  match dictGet? sd "TestInfo" with
  | none => .error (.keyError "TestInfo") sd
  | some (.list xs) =>
    match listGet? xs idx with
    | none => .error .indexError sd
    | some (.dict d) =>
      .ok () (dictSet sd "TestInfo" (.list (listSet xs idx (.dict (dictSet d k v)))))
    | some _ => .error .typeError sd
  | some _ => .error .typeError sd

/- The statement summary_dict["TestInfo"][idx][k] = f(old value of the
   field): the common shape of .extend(...) and += on a field of the
   entry, with the in-place mutation written back. -/
def modEntryField (idx : Nat) (k : String) (f : PyVal → Except PyErr PyVal) :
    PyM PyDict Unit := fun sd =>
  match dictGet? sd "TestInfo" with
  | none => .error (.keyError "TestInfo") sd
  | some (.list xs) =>
    match listGet? xs idx with
    | none => .error .indexError sd
    | some (.dict d) =>
      match dictGet? d k with
      | none => .error (.keyError k) sd
      | some old =>
        match f old with
        | .error e => .error e sd
        | .ok v =>
          .ok () (dictSet sd "TestInfo" (.list (listSet xs idx (.dict (dictSet d k v)))))
    | some _ => .error .typeError sd
  | some _ => .error .typeError sd

/- summary_dict["TestInfo"][idx][k].extend(one_test_info[k])
   (lines 161-166): the target field must be a list (else there is no
   .extend attribute), the argument is looked up in one_test_info and
   iterated. -/
def extendField (one_test_info : PyVal) (idx : Nat) (k : String) :
    PyM PyDict Unit :=
  modEntryField idx k (fun target =>
    match target with
    | .list xs =>
      match pyGetItemStr one_test_info k with
      | .error e => .error e
      | .ok arg =>
        match pyIter arg with
        | .error e => .error e
        | .ok ys => .ok (.list (xs ++ ys))
    | _ => .error .attributeError)

/- summary_dict["TestInfo"][idx]["FailureCount"] += one_test_info["NodeName"]
   (line 167): the current FailureCount value plus the NodeName value. -/
def addFailureCountStep (one_test_info : PyVal) (idx : Nat) : PyM PyDict Unit :=
  modEntryField idx "FailureCount" (fun cur =>
    match pyGetItemStr one_test_info "NodeName" with
    | .error e => .error e
    | .ok rhs => pyAdd cur rhs)

/- The newTest block of updateFailedTestInfo (lines 151-159). -/
def newTestInit (testIndex : Nat) : PyM PyDict Unit :=
  pseq appendTestInfoDict
  (pseq (setEntryField testIndex "JenkinsJobName" (.list []))
  (pseq (setEntryField testIndex "BuildID" (.list []))
  (pseq (setEntryField testIndex "Timestamp" (.list []))
  (pseq (setEntryField testIndex "GitHash" (.list []))
  (pseq (setEntryField testIndex "TestCategory" (.list []))
  (pseq (setEntryField testIndex "NodeName" (.list []))
  (setEntryField testIndex "FailureCount" (.int 0))))))))

/- updateFailedTestInfo (lines 135-167), acting on the dict that the
   summary_dict parameter aliases. -/
def updateFailedTestInfo (one_test_info : PyVal) (testIndex : Nat)
    (newTest : Bool) : PyM PyDict Unit :=
  pseq (if newTest then newTestInit testIndex else pySkip)
  (pseq (extendField one_test_info testIndex "JenkinsJobName")
  (pseq (extendField one_test_info testIndex "BuildID")
  (pseq (extendField one_test_info testIndex "Timestamp")
  (pseq (extendField one_test_info testIndex "GitHash")
  (pseq (extendField one_test_info testIndex "TestCategory")
  (pseq (extendField one_test_info testIndex "NodeName")
  (addFailureCountStep one_test_info testIndex)))))))

/- Observer: the k field of entry idx of summary_dict["TestInfo"], used to
   state properties about the entries. -/
def getEntryField (sd : PyDict) (idx : Nat) (k : String) : Except PyErr PyVal :=
  match dictGet? sd "TestInfo" with
  | none => .error (.keyError "TestInfo")
  | some (.list xs) =>
    match listGet? xs idx with
    | none => .error .indexError
    | some (.dict d) =>
      match dictGet? d k with
      | none => .error (.keyError k)
      | some v => .ok v
    | some _ => .error .typeError
  | some _ => .error .typeError

/- g_summary_dict_intermittents["TestName"].append(testName) (line 130):
   note the hard-coded global, independent of the summary_dict parameter. -/
def appendIntermittentsName (testName : PyVal) : PyM PyState Unit := fun s =>
  match dictGet? s.g_summary_dict_intermittents "TestName" with
  | none => .error (.keyError "TestName") s
  | some (.list xs) =>
    .ok () { s with g_summary_dict_intermittents :=
      (dictSet s.g_summary_dict_intermittents "TestName" (.list (xs ++ [testName]))) }
  | some _ => .error .attributeError s

/- len(g_summary_dict_intermittents["TestName"]) (line 132). -/
def lenIntermittentsTestName : PyM PyState Nat := fun s =>
  match dictGet? s.g_summary_dict_intermittents "TestName" with
  | none => .error (.keyError "TestName") s
  | some v =>
    match pyLen v with
    | .ok n => .ok n s
    | .error e => .error e s

/- addFailedTests (lines 122-132).  testNameList is summary_dict.keys(),
   the field names of the dict, not its "TestName" list; the membership
   test and .index therefore search the key list.  In the branch for a new
   test the name is appended to the global intermittents dict and the
   index passed on is the length of that list after the append. -/
def addFailedTests (target : Target) (temp_dict : PyVal) (index : PyVal) :
    PyM PyState Unit :=
  PyM.bind (liftE (pySub2 temp_dict "TestName" index)) (fun testName =>
  PyM.bind pyGetState (fun s =>
  if (dictKeys (getDict s target)).any (fun k => strKeyEq testName k) then
    PyM.bind (liftE (pySub2 temp_dict "TestInfo" index)) (fun oneInfo =>
      onTarget target (updateFailedTestInfo oneInfo
        ((dictKeys (getDict s target)).findIdx (fun k => strKeyEq testName k))
        false))
  else
    pseq (appendIntermittentsName testName)
    (PyM.bind (liftE (pySub2 temp_dict "TestInfo" index)) (fun oneInfo =>
     PyM.bind lenIntermittentsTestName (fun n =>
       onTarget target (updateFailedTestInfo oneInfo n true))))))

/- range(len(temp_dict)) (line 116): len of a dict is its number of keys,
   two for a well-formed Run Record, whatever the length of its test
   list. -/
def extractFailedTestsIndices (temp_dict : PyVal) : Except PyErr (List Nat) :=
  match pyLen temp_dict with
  | .error e => .error e
  | .ok n => .ok (List.range n)

def mergeLoop (temp_dict : PyVal) : List Nat → PyM PyState Unit
  | [] => pySkip
  | i :: rest =>
    pseq (addFailedTests Target.all temp_dict (PyVal.int (Int.ofNat i)))
      (mergeLoop temp_dict rest)

/- extractFailedTests (lines 106-117). -/
def extractFailedTests (temp_dict : PyVal) : PyM PyState Unit :=
  PyM.bind (liftE (extractFailedTestsIndices temp_dict))
    (fun inds => mergeLoop temp_dict inds)

/- The body of the first loop of extractPrintSaveIntermittens
   (lines 181-182). -/
def intermittentsFilterBody (g_threshold_failure : Int) (ind : PyVal) :
    PyM PyState Unit :=
  PyM.bind pyGetState (fun s =>
  PyM.bind (liftE
    (match pySub2 (PyVal.dict s.g_summary_dict_all) "TestInfo" ind with
     | .error e => .error e
     | .ok entry => pyGetItemStr entry "FailureCount")) (fun fc =>
  if pyGeInt fc g_threshold_failure then
    addFailedTests Target.intermittents (PyVal.dict s.g_summary_dict_all) ind
  else pySkip))

/- The first loop of extractPrintSaveIntermittens (lines 180-182):
   literally for ind in len(g_summary_dict_all) — the loop iterates over
   the int returned by len, not over range(...). -/
def intermittentsFilterLoop (g_threshold_failure : Int) : PyM PyState Unit :=
  PyM.bind pyGetState (fun s =>
  PyM.bind (liftE (pyIter (PyVal.int (Int.ofNat s.g_summary_dict_all.length))))
    (fun inds => pyForLoop (intermittentsFilterBody g_threshold_failure) inds))

/- The body of the second loop of extractPrintSaveIntermittens
   (lines 185-190): reads testName, FailureCount and min(Timestamp), then
   prints the report line (recorded as the triple of the three values). -/
def intermittentsPrintBody (ind : PyVal) : PyM PyState Unit :=
  PyM.bind pyGetState (fun s =>
  PyM.bind (liftE
    (pySub2 (PyVal.dict s.g_summary_dict_intermittents) "TestName" ind))
    (fun testName =>
  PyM.bind (liftE
    (match pySub2 (PyVal.dict s.g_summary_dict_intermittents) "TestInfo" ind with
     | .error e => .error e
     | .ok entry => pyGetItemStr entry "FailureCount")) (fun numberFailure =>
  PyM.bind (liftE
    (match pySub2 (PyVal.dict s.g_summary_dict_intermittents) "TestInfo" ind with
     | .error e => .error e
     | .ok entry =>
       match pyGetItemStr entry "Timestamp" with
       | .error e => .error e
       | .ok ts => pyMin ts)) (fun firstFailedTS =>
  fun s2 => .ok () { s2 with output :=
    (s2.output ++ [(testName, numberFailure, firstFailedTS)]) }))))

/- The second loop of extractPrintSaveIntermittens (lines 184-190): again
   literally for ind in len(g_summary_dict_intermittents). -/
def intermittentsPrintLoop : PyM PyState Unit :=
  PyM.bind pyGetState (fun s =>
  PyM.bind (liftE
    (pyIter (PyVal.int (Int.ofNat s.g_summary_dict_intermittents.length))))
    (fun inds => pyForLoop intermittentsPrintBody inds))

/- pickle.dump of g_summary_dict_intermittents (lines 192-193). -/
def saveIntermittentsDict : PyM PyState Unit := fun s =>
  .ok () { s with saved := some s.g_summary_dict_intermittents }

/- extractPrintSaveIntermittens (lines 170-193). -/
def extractPrintSaveIntermittens (g_threshold_failure : Int) :
    PyM PyState Unit :=
  pseq (intermittentsFilterLoop g_threshold_failure)
  (pseq intermittentsPrintLoop saveIntermittentsDict)

/- Substring containment p in f on strings, as Python str membership. -/
def charsContain (p : List Char) : List Char → Bool
  | [] => decide (p = [])
  | c :: rest => p.isPrefixOf (c :: rest) || charsContain p rest

def strIn (p f : String) : Bool := charsContain p.toList f.toList

/- The inner prefix loop of summarizeFailedRuns (lines 95-103): the first
   prefix contained in the file name triggers the body (open the file,
   pickle.load it, extractFailedTests) and then break leaves the loop, so
   at most one (file, prefix) processing event arises per file. -/
def scanPrefixes (f : String) : List String → List (String × String)
  | [] => []
  | p :: rest => if strIn p f then [(f, p)] else scanPrefixes f rest

/- summarizeFailedRuns (lines 85-103).  Directory enumeration, open and
   pickle.load are I/O and are abstracted away: the function returns, in
   order, the (file, prefix) pairs for which the body deserializes the
   file and merges it; the actual merging of each loaded Run Record is
   extractFailedTests above. -/
def summarizeFailedRuns (onlyFiles : List String) (g_file_start : List String) :
    List (String × String) :=
  match onlyFiles with
  | [] => []
  | f :: rest => scanPrefixes f g_file_start ++ summarizeFailedRuns rest g_file_start

/- The outcome of main (lines 196-228): with len(argv) < 6 the script
   prints the usage text and calls sys.exit(1) before any retrieval, merge
   or output; otherwise it parses the configuration (threshold is argv[1],
   the output dict name argv[2], the AWS path argv[3], and every further
   argument a file prefix) and runs the pipeline. -/
inductive MainResult where
  | usageExit : Nat → MainResult
  | run : String → String → String → List String → MainResult

def pyMain (argv : List String) : MainResult :=
  if argv.length < 6 then MainResult.usageExit 1
  else MainResult.run (argv.getD 1 "") (argv.getD 2 "") (argv.getD 3 "")
    (argv.drop 4)

/- Concrete per-test metadata records, well formed per the data model:
   the six sequence fields are lists (NodeName included). -/
def infoA : PyVal := PyVal.dict
  [("JenkinsJobName", PyVal.list [PyVal.str "jobA"]),
   ("BuildID", PyVal.list [PyVal.str "17"]),
   ("Timestamp", PyVal.list [PyVal.int 100]),
   ("GitHash", PyVal.list [PyVal.str "g1"]),
   ("TestCategory", PyVal.list [PyVal.str "PyUnit"]),
   ("NodeName", PyVal.list [PyVal.str "node1"])]

def infoA2 : PyVal := PyVal.dict
  [("JenkinsJobName", PyVal.list [PyVal.str "jobB"]),
   ("BuildID", PyVal.list [PyVal.str "18"]),
   ("Timestamp", PyVal.list [PyVal.int 50]),
   ("GitHash", PyVal.list [PyVal.str "g2"]),
   ("TestCategory", PyVal.list [PyVal.str "PyUnit"]),
   ("NodeName", PyVal.list [PyVal.str "node2"])]

/- Run Record with the single test "A"; two of them share the name. -/
def rA1 : PyVal := PyVal.dict
  [("TestName", PyVal.list [PyVal.str "A"]),
   ("TestInfo", PyVal.list [infoA])]

def rA2 : PyVal := PyVal.dict
  [("TestName", PyVal.list [PyVal.str "A"]),
   ("TestInfo", PyVal.list [infoA2])]

/- Run Record with the single test "B". -/
def rB : PyVal := PyVal.dict
  [("TestName", PyVal.list [PyVal.str "B"]),
   ("TestInfo", PyVal.list [infoA])]

/- Run Record with the three tests "A", "B", "C". -/
def rABC : PyVal := PyVal.dict
  [("TestName", PyVal.list [PyVal.str "A", PyVal.str "B", PyVal.str "C"]),
   ("TestInfo", PyVal.list [infoA, infoA2, infoA])]

/- The state right after init_intermittents_dict at process start. -/
def sInit : PyState :=
  { g_summary_dict_all := [],
    g_summary_dict_intermittents :=
      [("TestName", PyVal.list []), ("TestInfo", PyVal.list [])],
    output := [], saved := none }

theorem sInit_is_initialized :
    init_intermittents_dict initialState = PyResult.ok () sInit := rfl

/- The state at which the first merge of a record with test "A" aborts. -/
def sAfterA : PyState :=
  { g_summary_dict_all := [],
    g_summary_dict_intermittents :=
      [("TestName", PyVal.list [PyVal.str "A"]), ("TestInfo", PyVal.list [])],
    output := [], saved := none }

/- The state at which the first merge of a record with test "B" aborts. -/
def sAfterB : PyState :=
  { g_summary_dict_all := [],
    g_summary_dict_intermittents :=
      [("TestName", PyVal.list [PyVal.str "B"]), ("TestInfo", PyVal.list [])],
    output := [], saved := none }

/-- Claim C1 (code bug): the filter step, lines 180-182, is claimed to
produce the subset of the Cumulative Mapping with FailureCount at or above
the threshold.  In the source the loop header is
for ind in len(g_summary_dict_all), which iterates over an int: from every
state and for every threshold the filter loop raises TypeError and leaves
the state (in particular the Intermittents Mapping) unchanged, so no
subset is ever produced. -/
theorem intermittentsFilterLoop_typeError (g_threshold_failure : Int)
    (s : PyState) :
    intermittentsFilterLoop g_threshold_failure s =
      PyResult.error PyErr.typeError s := rfl

/-- Claim C7 (code bug): the reporter, lines 184-190, is claimed to print
one line per Intermittents Mapping entry with the minimum of its Timestamp
sequence.  The loop header is for ind in len(g_summary_dict_intermittents),
which iterates over an int: from every state the print loop raises
TypeError and leaves the state unchanged, so no line is ever printed
(the output component of the state does not change). -/
theorem intermittentsPrintLoop_typeError (s : PyState) :
    intermittentsPrintLoop s = PyResult.error PyErr.typeError s := rfl

/-- Claim C2 (code bug): merging two Run Records that share the test name
"A" is claimed to yield one Cumulative Mapping entry with concatenated
sequence fields.  In the source the presence test compares the name
against summary_dict.keys() (the field names of the dict, not its test
names) and g_summary_dict_all never receives a "TestInfo" key, so the very
first merge aborts with KeyError on "TestInfo" after appending "A" to the
intermittents name list: no cumulative entry is ever created, and
g_summary_dict_all stays empty. -/
theorem mergeSharedTestName_keyError :
    pseq (extractFailedTests rA1) (extractFailedTests rA2) sInit =
      PyResult.error (PyErr.keyError "TestInfo") sAfterA ∧
    sAfterA.g_summary_dict_all = [] := And.intro rfl rfl

/-- Claim C3 (code bug): for a test name not yet present, the merge step is
claimed to append the name to the Cumulative Mapping itself and create a
fresh zeroed entry there before merging.  In the source the append at line
130 goes to the hard-coded global g_summary_dict_intermittents, and the
fresh-entry creation immediately aborts with KeyError because
g_summary_dict_all has no "TestInfo" key: after the call the cumulative
dict has no "TestName" key at all while the intermittents name list
received "A". -/
theorem addFailedTests_newName_keyError :
    addFailedTests Target.all rA1 (PyVal.int 0) sInit =
      PyResult.error (PyErr.keyError "TestInfo") sAfterA ∧
    dictGet? sAfterA.g_summary_dict_all "TestName" = none ∧
    dictGet? sAfterA.g_summary_dict_intermittents "TestName" =
      some (PyVal.list [PyVal.str "A"]) :=
  And.intro rfl (And.intro rfl rfl)

/-- Claim C5 (code bug): the merge step is claimed to perform one add/merge
per position of the TestName list of the Run Record.  The source loops
for ind in range(len(temp_dict)), and len of a dict is its number of keys:
for the record rABC with three test names the loop index list is [0, 1]
(two iterations, one per dict key), not one iteration per test. -/
theorem extractFailedTestsIndices_counts_keys :
    extractFailedTestsIndices rABC = Except.ok [0, 1] ∧
    pyGetItemStr rABC "TestName" =
      Except.ok (PyVal.list [PyVal.str "A", PyVal.str "B", PyVal.str "C"]) :=
  And.intro rfl rfl

/-- Claim C6 (code bug): the claimed invariant is that after every merge
the Cumulative Mapping has a duplicate-free test-name list with
index-aligned sequence fields.  In the source no merge into the cumulative
dict ever completes: already the first merge of a one-test record raises
KeyError on "TestInfo", the cumulative dict never receives a test-name
list (no "TestName" key), and the name is appended to the intermittents
dict instead, so the invariant is never established. -/
theorem extractFailedTests_invariant_broken :
    extractFailedTests rB sInit =
      PyResult.error (PyErr.keyError "TestInfo") sAfterB ∧
    dictGet? sAfterB.g_summary_dict_all "TestName" = none ∧
    dictGet? sAfterB.g_summary_dict_intermittents "TestName" =
      some (PyVal.list [PyVal.str "B"]) :=
  And.intro rfl (And.intro rfl rfl)

/-- Claim C9 (confirmed): the source checks len(argv) < 6, and argv holds
the script name followed by threshold, output_filename, remote_path and
the file prefixes, so the prefixes are argv.drop 4: an invocation with
fewer than 2 file_prefix strings beyond the first three positional
arguments prints the usage text and exits with status 1 (performing no
retrieval, merge or output, since usageExit is returned before the
pipeline runs), and every invocation that proceeds has at least two (hence
at least one) file_prefix strings. -/
theorem pyMain_usage_exit (argv : List String) :
    ((argv.drop 4).length < 2 ↔ pyMain argv = MainResult.usageExit 1) ∧
    (∀ t o a ps, pyMain argv = MainResult.run t o a ps → 2 ≤ ps.length) := by
  have hl : (argv.drop 4).length = argv.length - 4 := List.length_drop 4 argv
  constructor
  · constructor
    · intro h
      have h6 : argv.length < 6 := by omega
      simp [pyMain, h6]
    · intro h
      by_cases h6 : argv.length < 6
      · omega
      · simp [pyMain, h6] at h
  · intro t o a ps h
    by_cases h6 : argv.length < 6
    · simp [pyMain, h6] at h
    · simp only [pyMain, h6, if_neg] at h
      have hps : ps = argv.drop 4 := by
        cases h
        rfl
      rw [hps, hl]
      omega

theorem pyMain_usage_exit_witness :
    pyMain ["summarizeIntermittens.py", "2", "dict.pickle", "s3path", "p1"] =
      MainResult.usageExit 1 :=
  (pyMain_usage_exit
    ["summarizeIntermittens.py", "2", "dict.pickle", "s3path", "p1"]).1.mp
    (by decide)

theorem dictGet?_dictSet_self (d : PyDict) (k : String) (v : PyVal) :
    dictGet? (dictSet d k v) k = some v := by
  induction d with
  | nil => simp [dictSet, dictGet?]
  | cons kv rest ih =>
    obtain ⟨k2, w⟩ := kv
    by_cases h : k2 = k
    · simp [dictSet, dictGet?, h]
    · simp [dictSet, dictGet?, h, ih]

theorem dictGet?_dictSet_ne (d : PyDict) (k k2 : String) (v : PyVal)
    (h : k ≠ k2) : dictGet? (dictSet d k v) k2 = dictGet? d k2 := by
  induction d with
  | nil => simp [dictSet, dictGet?, h]
  | cons kv rest ih =>
    obtain ⟨k3, w⟩ := kv
    by_cases h3 : k3 = k
    · subst h3
      simp [dictSet, dictGet?, h]
    · simp [dictSet, dictGet?, h3, ih]

theorem listGet?_listSet_self (xs : List PyVal) (i : Nat) (a e : PyVal) :
    listGet? xs i = some a → listGet? (listSet xs i e) i = some e := by
  induction xs generalizing i with
  | nil => intro h; simp [listGet?] at h
  | cons x rest ih =>
    intro h
    cases i with
    | zero => simp [listSet, listGet?]
    | succ j =>
      simp only [listGet?] at h
      simp only [listSet, listGet?]
      exact ih j h

theorem pseq_ok_inv {σ : Type} (m1 m2 : PyM σ Unit) (s s2 : σ)
    (h : pseq m1 m2 s = PyResult.ok () s2) :
    ∃ s1, m1 s = PyResult.ok () s1 ∧ m2 s1 = PyResult.ok () s2 := by
  unfold pseq at h
  cases hm : m1 s with
  | ok u s1 =>
    rw [hm] at h
    cases u
    exact ⟨s1, rfl, h⟩
  | error e s1 =>
    rw [hm] at h
    exact absurd h (by simp)

theorem modEntryField_ok_inv (idx : Nat) (k : String)
    (f : PyVal → Except PyErr PyVal) (sd sd2 : PyDict)
    (h : modEntryField idx k f sd = PyResult.ok () sd2) :
    ∃ xs d old v, dictGet? sd "TestInfo" = some (PyVal.list xs) ∧
      listGet? xs idx = some (PyVal.dict d) ∧
      dictGet? d k = some old ∧ f old = Except.ok v ∧
      sd2 = dictSet sd "TestInfo"
        (PyVal.list (listSet xs idx (PyVal.dict (dictSet d k v)))) := by
  unfold modEntryField at h
  cases hti : dictGet? sd "TestInfo" with
  | none => rw [hti] at h; simp at h
  | some ti =>
    rw [hti] at h
    cases ti with
    | int n => simp at h
    | str s3 => simp at h
    | dict dd => simp at h
    | list xs =>
      simp only [] at h
      cases hli : listGet? xs idx with
      | none => rw [hli] at h; simp at h
      | some e =>
        rw [hli] at h
        cases e with
        | int n => simp at h
        | str s3 => simp at h
        | list l => simp at h
        | dict d =>
          simp only [] at h
          cases hdk : dictGet? d k with
          | none => rw [hdk] at h; simp at h
          | some old =>
            rw [hdk] at h
            simp only [] at h
            cases hf : f old with
            | error e2 => rw [hf] at h; simp at h
            | ok v =>
              rw [hf] at h
              simp only [] at h
              injection h with h1 h2
              exact ⟨xs, d, old, v, rfl, hli, hdk, hf, h2.symm⟩

theorem setEntryField_ok_inv (idx : Nat) (k : String) (v : PyVal)
    (sd sd2 : PyDict)
    (h : setEntryField idx k v sd = PyResult.ok () sd2) :
    ∃ xs d, dictGet? sd "TestInfo" = some (PyVal.list xs) ∧
      listGet? xs idx = some (PyVal.dict d) ∧
      sd2 = dictSet sd "TestInfo"
        (PyVal.list (listSet xs idx (PyVal.dict (dictSet d k v)))) := by
  unfold setEntryField at h
  cases hti : dictGet? sd "TestInfo" with
  | none => rw [hti] at h; simp at h
  | some ti =>
    rw [hti] at h
    cases ti with
    | int n => simp at h
    | str s3 => simp at h
    | dict dd => simp at h
    | list xs =>
      simp only [] at h
      cases hli : listGet? xs idx with
      | none => rw [hli] at h; simp at h
      | some e =>
        rw [hli] at h
        cases e with
        | int n => simp at h
        | str s3 => simp at h
        | list l => simp at h
        | dict d =>
          simp only [] at h
          injection h with h1 h2
          exact ⟨xs, d, rfl, hli, h2.symm⟩

theorem getEntryField_ok_inv (sd : PyDict) (idx : Nat) (k : String) (v : PyVal)
    (h : getEntryField sd idx k = Except.ok v) :
    ∃ xs d, dictGet? sd "TestInfo" = some (PyVal.list xs) ∧
      listGet? xs idx = some (PyVal.dict d) ∧ dictGet? d k = some v := by
  unfold getEntryField at h
  cases hti : dictGet? sd "TestInfo" with
  | none => rw [hti] at h; simp at h
  | some ti =>
    rw [hti] at h
    cases ti with
    | int n => simp at h
    | str s3 => simp at h
    | dict dd => simp at h
    | list xs =>
      simp only [] at h
      cases hli : listGet? xs idx with
      | none => rw [hli] at h; simp at h
      | some e =>
        rw [hli] at h
        cases e with
        | int n => simp at h
        | str s3 => simp at h
        | list l => simp at h
        | dict d =>
          simp only [] at h
          cases hdk : dictGet? d k with
          | none => rw [hdk] at h; simp at h
          | some w =>
            rw [hdk] at h
            simp only [] at h
            injection h with h1
            exact ⟨xs, d, rfl, hli, by rw [hdk, h1]⟩

/- Mutating field k of entry idx leaves every other field of that entry
   unchanged. -/
theorem modEntryField_preserves (idx : Nat) (k : String)
    (f : PyVal → Except PyErr PyVal) (sd sd2 : PyDict) (k2 : String)
    (h : modEntryField idx k f sd = PyResult.ok () sd2) (hne : k ≠ k2) :
    getEntryField sd2 idx k2 = getEntryField sd idx k2 := by
  obtain ⟨xs, d, old, v, hti, hli, hdk, hf, hsd2⟩ :=
    modEntryField_ok_inv idx k f sd sd2 h
  subst hsd2
  unfold getEntryField
  rw [dictGet?_dictSet_self, hti]
  simp only []
  rw [listGet?_listSet_self xs idx (PyVal.dict d)
    (PyVal.dict (dictSet d k v)) hli, hli]
  simp only []
  rw [dictGet?_dictSet_ne d k k2 v hne]

theorem extendField_preserves (one_test_info : PyVal) (idx : Nat)
    (k : String) (sd sd2 : PyDict) (k2 : String)
    (h : extendField one_test_info idx k sd = PyResult.ok () sd2)
    (hne : k ≠ k2) :
    getEntryField sd2 idx k2 = getEntryField sd idx k2 := by
  unfold extendField at h
  exact modEntryField_preserves idx k _ sd sd2 k2 h hne

/- After summary_dict["TestInfo"][idx]["FailureCount"] = 0, the
   FailureCount field of entry idx reads back as int 0. -/
theorem setEntryField_sets (idx : Nat) (v : PyVal) (sd sd2 : PyDict)
    (h : setEntryField idx "FailureCount" v sd = PyResult.ok () sd2) :
    getEntryField sd2 idx "FailureCount" = Except.ok v := by
  obtain ⟨xs, d, hti, hli, hsd2⟩ := setEntryField_ok_inv idx "FailureCount" v sd sd2 h
  subst hsd2
  unfold getEntryField
  rw [dictGet?_dictSet_self]
  simp only []
  rw [listGet?_listSet_self xs idx (PyVal.dict d)
    (PyVal.dict (dictSet d "FailureCount" v)) hli]
  simp only []
  rw [dictGet?_dictSet_self]

/- Line 167 on an entry whose FailureCount is an int and a record whose
   NodeName is a list: int += list raises TypeError and mutates nothing. -/
theorem addFailureCountStep_int_error (one_test_info : PyVal)
    (ns : List PyVal) (idx : Nat) (sd : PyDict) (c : Int)
    (hNode : pyGetItemStr one_test_info "NodeName" = Except.ok (PyVal.list ns))
    (hFC : getEntryField sd idx "FailureCount" = Except.ok (PyVal.int c)) :
    addFailureCountStep one_test_info idx sd =
      PyResult.error PyErr.typeError sd := by
  obtain ⟨xs, d, hti, hli, hdk⟩ :=
    getEntryField_ok_inv sd idx "FailureCount" (PyVal.int c) hFC
  unfold addFailureCountStep modEntryField
  rw [hti]
  simp only []
  rw [hli]
  simp only []
  rw [hdk]
  simp only []
  rw [hNode]
  rfl

theorem newTestInit_ok_FC (idx : Nat) (sd sd2 : PyDict)
    (h : newTestInit idx sd = PyResult.ok () sd2) :
    getEntryField sd2 idx "FailureCount" = Except.ok (PyVal.int 0) := by
  unfold newTestInit at h
  obtain ⟨t1, h1, h⟩ := pseq_ok_inv _ _ _ _ h
  obtain ⟨t2, h2, h⟩ := pseq_ok_inv _ _ _ _ h
  obtain ⟨t3, h3, h⟩ := pseq_ok_inv _ _ _ _ h
  obtain ⟨t4, h4, h⟩ := pseq_ok_inv _ _ _ _ h
  obtain ⟨t5, h5, h⟩ := pseq_ok_inv _ _ _ _ h
  obtain ⟨t6, h6, h⟩ := pseq_ok_inv _ _ _ _ h
  obtain ⟨t7, h7, h⟩ := pseq_ok_inv _ _ _ _ h
  exact setEntryField_sets idx (PyVal.int 0) t7 sd2 h

/-- Claim C4 (confirmed): for a per-test metadata record whose NodeName
field is a sequence (a list, as the data model requires) the FailureCount
update of the merge, line 167, adds that list to the integer FailureCount
accumulator (an int: either the entry already carries an int FailureCount,
or newTest holds and the entry is freshly zeroed at line 159), and this
cannot execute: updateFailedTestInfo never returns successfully for such a
record, and the FailureCount update step itself raises TypeError on every
entry whose FailureCount is an int, mutating nothing. -/
theorem updateFailedTestInfo_nodeName_typeError (one_test_info : PyVal)
    (ns : List PyVal) (testIndex : Nat) (newTest : Bool) (sd : PyDict)
    (hNode : pyGetItemStr one_test_info "NodeName" = Except.ok (PyVal.list ns))
    (hFC : newTest = true ∨
      ∃ c : Int, getEntryField sd testIndex "FailureCount" =
        Except.ok (PyVal.int c)) :
    (∀ sd2 : PyDict,
      updateFailedTestInfo one_test_info testIndex newTest sd ≠
        PyResult.ok () sd2) ∧
    (∀ (c : Int) (sd1 : PyDict),
      getEntryField sd1 testIndex "FailureCount" = Except.ok (PyVal.int c) →
      addFailureCountStep one_test_info testIndex sd1 =
        PyResult.error PyErr.typeError sd1) := by
  constructor
  · intro sd2 hok
    unfold updateFailedTestInfo at hok
    obtain ⟨s1, hInit, hok⟩ := pseq_ok_inv _ _ _ _ hok
    have hFC1 : ∃ c : Int, getEntryField s1 testIndex "FailureCount" =
        Except.ok (PyVal.int c) := by
      cases newTest with
      | true =>
        simp only [if_true] at hInit
        exact ⟨0, newTestInit_ok_FC testIndex sd s1 hInit⟩
      | false =>
        simp only [Bool.false_eq_true, if_false] at hInit
        unfold pySkip at hInit
        injection hInit with h1 h2
        subst h2
        cases hFC with
        | inl hbad => exact absurd hbad (by simp)
        | inr hgood => exact hgood
    obtain ⟨c, hc⟩ := hFC1
    obtain ⟨s2, hE, hok⟩ := pseq_ok_inv _ _ _ _ hok
    have hc2 := (extendField_preserves one_test_info testIndex
      "JenkinsJobName" s1 s2 "FailureCount" hE (by decide)).trans hc
    obtain ⟨s3, hE, hok⟩ := pseq_ok_inv _ _ _ _ hok
    have hc3 := (extendField_preserves one_test_info testIndex
      "BuildID" s2 s3 "FailureCount" hE (by decide)).trans hc2
    obtain ⟨s4, hE, hok⟩ := pseq_ok_inv _ _ _ _ hok
    have hc4 := (extendField_preserves one_test_info testIndex
      "Timestamp" s3 s4 "FailureCount" hE (by decide)).trans hc3
    obtain ⟨s5, hE, hok⟩ := pseq_ok_inv _ _ _ _ hok
    have hc5 := (extendField_preserves one_test_info testIndex
      "GitHash" s4 s5 "FailureCount" hE (by decide)).trans hc4
    obtain ⟨s6, hE, hok⟩ := pseq_ok_inv _ _ _ _ hok
    have hc6 := (extendField_preserves one_test_info testIndex
      "TestCategory" s5 s6 "FailureCount" hE (by decide)).trans hc5
    obtain ⟨s7, hE, hok⟩ := pseq_ok_inv _ _ _ _ hok
    have hc7 := (extendField_preserves one_test_info testIndex
      "NodeName" s6 s7 "FailureCount" hE (by decide)).trans hc6
    rw [addFailureCountStep_int_error one_test_info ns testIndex s7 c
      hNode hc7] at hok
    exact absurd hok (by simp)
  · intro c sd1 h
    exact addFailureCountStep_int_error one_test_info ns testIndex sd1 c
      hNode h

/- A concrete well-formed entry dict for the C4 witness. -/
def sdC4 : PyDict :=
  [("TestInfo", PyVal.list [PyVal.dict
    [("JenkinsJobName", PyVal.list []),
     ("BuildID", PyVal.list []),
     ("Timestamp", PyVal.list []),
     ("GitHash", PyVal.list []),
     ("TestCategory", PyVal.list []),
     ("NodeName", PyVal.list []),
     ("FailureCount", PyVal.int 3)]])]

theorem updateFailedTestInfo_nodeName_typeError_witness :
    updateFailedTestInfo infoA 0 false sdC4 ≠ PyResult.ok () sdC4 :=
  (updateFailedTestInfo_nodeName_typeError infoA [PyVal.str "node1"] 0 false
    sdC4 rfl (Or.inr ⟨3, rfl⟩)).1 sdC4

/- A dict-level statement preserves key k when the dict it leaves behind
   (also behind an exception) binds k exactly as before. -/
def PreservesKey (m : PyM PyDict Unit) (k : String) : Prop :=
  ∀ sd, dictGet? (PyResult.stateOf (m sd)) k = dictGet? sd k

theorem preservesKey_pseq (m1 m2 : PyM PyDict Unit) (k : String)
    (h1 : PreservesKey m1 k) (h2 : PreservesKey m2 k) :
    PreservesKey (pseq m1 m2) k := by
  intro sd
  have hs1 := h1 sd
  unfold pseq
  cases hm : m1 sd with
  | ok u s1 =>
    rw [hm] at hs1
    simp only [PyResult.stateOf] at hs1
    simp only []
    exact (h2 s1).trans hs1
  | error e s1 =>
    rw [hm] at hs1
    simp only [PyResult.stateOf] at hs1
    simp only [PyResult.stateOf]
    exact hs1

theorem preservesKey_pySkip (k : String) : PreservesKey pySkip k := by
  intro sd
  rfl

theorem preservesKey_appendTestInfoDict (k : String) (hk : k ≠ "TestInfo") :
    PreservesKey appendTestInfoDict k := by
  intro sd
  unfold appendTestInfoDict
  cases hti : dictGet? sd "TestInfo" with
  | none => simp [PyResult.stateOf]
  | some v =>
    cases v with
    | list xs =>
      simp [PyResult.stateOf,
        dictGet?_dictSet_ne sd "TestInfo" k _ (Ne.symm hk)]
    | int n => simp [PyResult.stateOf]
    | str s2 => simp [PyResult.stateOf]
    | dict dd => simp [PyResult.stateOf]

theorem preservesKey_setEntryField (idx : Nat) (k2 : String) (v : PyVal)
    (k : String) (hk : k ≠ "TestInfo") :
    PreservesKey (setEntryField idx k2 v) k := by
  intro sd
  unfold setEntryField
  cases hti : dictGet? sd "TestInfo" with
  | none => simp [PyResult.stateOf]
  | some w =>
    cases w with
    | int n => simp [PyResult.stateOf]
    | str s2 => simp [PyResult.stateOf]
    | dict dd => simp [PyResult.stateOf]
    | list xs =>
      simp only []
      cases hli : listGet? xs idx with
      | none => simp [PyResult.stateOf]
      | some e =>
        cases e with
        | int n => simp [PyResult.stateOf]
        | str s2 => simp [PyResult.stateOf]
        | list l => simp [PyResult.stateOf]
        | dict d =>
          simp [PyResult.stateOf,
            dictGet?_dictSet_ne sd "TestInfo" k _ (Ne.symm hk)]

theorem preservesKey_modEntryField (idx : Nat) (k2 : String)
    (f : PyVal → Except PyErr PyVal) (k : String) (hk : k ≠ "TestInfo") :
    PreservesKey (modEntryField idx k2 f) k := by
  intro sd
  unfold modEntryField
  cases hti : dictGet? sd "TestInfo" with
  | none => simp [PyResult.stateOf]
  | some w =>
    cases w with
    | int n => simp [PyResult.stateOf]
    | str s2 => simp [PyResult.stateOf]
    | dict dd => simp [PyResult.stateOf]
    | list xs =>
      simp only []
      cases hli : listGet? xs idx with
      | none => simp [PyResult.stateOf]
      | some e =>
        cases e with
        | int n => simp [PyResult.stateOf]
        | str s2 => simp [PyResult.stateOf]
        | list l => simp [PyResult.stateOf]
        | dict d =>
          simp only []
          cases hdk : dictGet? d k2 with
          | none => simp [PyResult.stateOf]
          | some old =>
            simp only []
            cases hf : f old with
            | error e2 => simp [PyResult.stateOf]
            | ok v =>
              simp [PyResult.stateOf,
                dictGet?_dictSet_ne sd "TestInfo" k _ (Ne.symm hk)]

theorem preservesKey_newTestInit (idx : Nat) (k : String)
    (hk : k ≠ "TestInfo") : PreservesKey (newTestInit idx) k := by
  unfold newTestInit
  exact preservesKey_pseq _ _ _ (preservesKey_appendTestInfoDict k hk)
    (preservesKey_pseq _ _ _ (preservesKey_setEntryField _ _ _ k hk)
    (preservesKey_pseq _ _ _ (preservesKey_setEntryField _ _ _ k hk)
    (preservesKey_pseq _ _ _ (preservesKey_setEntryField _ _ _ k hk)
    (preservesKey_pseq _ _ _ (preservesKey_setEntryField _ _ _ k hk)
    (preservesKey_pseq _ _ _ (preservesKey_setEntryField _ _ _ k hk)
    (preservesKey_pseq _ _ _ (preservesKey_setEntryField _ _ _ k hk)
    (preservesKey_setEntryField _ _ _ k hk)))))))

theorem preservesKey_updateFailedTestInfo (one_test_info : PyVal)
    (testIndex : Nat) (newTest : Bool) (k : String) (hk : k ≠ "TestInfo") :
    PreservesKey (updateFailedTestInfo one_test_info testIndex newTest) k := by
  unfold updateFailedTestInfo extendField addFailureCountStep
  refine preservesKey_pseq _ _ _ ?_ ?_
  · cases newTest with
    | true => simp only [if_true]; exact preservesKey_newTestInit _ k hk
    | false =>
      simp only [Bool.false_eq_true, if_false]
      exact preservesKey_pySkip k
  · exact preservesKey_pseq _ _ _ (preservesKey_modEntryField _ _ _ k hk)
      (preservesKey_pseq _ _ _ (preservesKey_modEntryField _ _ _ k hk)
      (preservesKey_pseq _ _ _ (preservesKey_modEntryField _ _ _ k hk)
      (preservesKey_pseq _ _ _ (preservesKey_modEntryField _ _ _ k hk)
      (preservesKey_pseq _ _ _ (preservesKey_modEntryField _ _ _ k hk)
      (preservesKey_pseq _ _ _ (preservesKey_modEntryField _ _ _ k hk)
      (preservesKey_modEntryField _ _ _ k hk))))))

theorem stateOf_onTarget (t : Target) (m : PyM PyDict Unit) (s : PyState) :
    PyResult.stateOf (onTarget t m s) =
      setDict s t (PyResult.stateOf (m (getDict s t))) := by
  unfold onTarget
  cases hm : m (getDict s t) with
  | ok u d2 => rfl
  | error e d2 => rfl

theorem bind_ok_step (m : PyM σ α) (f : α → PyM σ β) (s s2 : σ) (a : α)
    (h : m s = PyResult.ok a s2) : PyM.bind m f s = f a s2 := by
  unfold PyM.bind
  rw [h]

theorem bind_liftE_ok (x : Except PyErr α) (a : α) (f : α → PyM σ β) (s : σ)
    (hx : x = Except.ok a) : PyM.bind (liftE x) f s = f a s := by
  subst hx
  rfl

theorem bind_liftE_error (x : Except PyErr α) (e : PyErr) (f : α → PyM σ β)
    (s : σ) (hx : x = Except.error e) :
    PyM.bind (liftE x) f s = PyResult.error e s := by
  subst hx
  rfl

theorem bind_pyGetState (f : σ → PyM σ β) (s : σ) :
    PyM.bind pyGetState f s = f s s := rfl

theorem pseq_ok_step (m1 m2 : PyM σ Unit) (s s1 : σ)
    (h : m1 s = PyResult.ok () s1) : pseq m1 m2 s = m2 s1 := by
  unfold pseq
  rw [h]

theorem appendIntermittentsName_ok (testName : PyVal) (s : PyState)
    (names : List PyVal)
    (hil : dictGet? s.g_summary_dict_intermittents "TestName" =
      some (PyVal.list names)) :
    appendIntermittentsName testName s = PyResult.ok ()
      { s with g_summary_dict_intermittents :=
        (dictSet s.g_summary_dict_intermittents "TestName"
          (PyVal.list (names ++ [testName]))) } := by
  unfold appendIntermittentsName
  rw [hil]

theorem lenIntermittentsTestName_ok (s : PyState) (names : List PyVal)
    (hil : dictGet? s.g_summary_dict_intermittents "TestName" =
      some (PyVal.list names)) :
    lenIntermittentsTestName s = PyResult.ok names.length s := by
  unfold lenIntermittentsTestName
  rw [hil]
  rfl

/-- Claim C10 (confirmed): whenever addFailedTests meets a test name that
is not already present (the membership test over summary_dict.keys()
fails), it appends that name to the name list of the hard-coded global
g_summary_dict_intermittents, regardless of which summary mapping was
passed as the summary_dict parameter, and it never extends a "TestName"
entry of g_summary_dict_all: after the call (whether it returns or raises)
the intermittents name list has grown by exactly that name and the
"TestName" binding of the cumulative dict is what it was before. -/
theorem addFailedTests_appends_global_intermittents (target : Target)
    (temp_dict index testName : PyVal) (s : PyState) (names : List PyVal)
    (hname : pySub2 temp_dict "TestName" index = Except.ok testName)
    (hnotin : (dictKeys (getDict s target)).any
      (fun k => strKeyEq testName k) = false)
    (hil : dictGet? s.g_summary_dict_intermittents "TestName" =
      some (PyVal.list names)) :
    dictGet? (PyResult.stateOf (addFailedTests target temp_dict index
        s)).g_summary_dict_intermittents "TestName" =
      some (PyVal.list (names ++ [testName])) ∧
    dictGet? (PyResult.stateOf (addFailedTests target temp_dict index
        s)).g_summary_dict_all "TestName" =
      dictGet? s.g_summary_dict_all "TestName" := by
  unfold addFailedTests
  rw [bind_liftE_ok (pySub2 temp_dict "TestName" index) testName _ s hname]
  try simp only []
  rw [bind_pyGetState]
  simp only [hnotin, Bool.false_eq_true, if_false]
  rw [pseq_ok_step _ _ _ _ (appendIntermittentsName_ok testName s names hil)]
  have hil2 : dictGet? ({ s with g_summary_dict_intermittents :=
      (dictSet s.g_summary_dict_intermittents "TestName"
        (PyVal.list (names ++ [testName]))) } :
      PyState).g_summary_dict_intermittents "TestName" =
      some (PyVal.list (names ++ [testName])) := by
    try simp only []
    exact dictGet?_dictSet_self _ _ _
  cases hoi : pySub2 temp_dict "TestInfo" index with
  | error e =>
    rw [bind_liftE_error (Except.error e) e _ _ rfl]
    constructor
    · simp only [PyResult.stateOf]
      exact hil2
    · simp only [PyResult.stateOf]
  | ok oneInfo =>
    rw [bind_liftE_ok (Except.ok oneInfo) oneInfo _ _ rfl]
    try simp only []
    rw [bind_ok_step _ _ _ _ _ (lenIntermittentsTestName_ok _ _ hil2)]
    try simp only []
    rw [stateOf_onTarget]
    cases target with
    | all =>
      constructor
      · simp only [setDict, getDict]
        exact dictGet?_dictSet_self _ _ _
      · have hp := preservesKey_updateFailedTestInfo oneInfo
          (names ++ [testName]).length true "TestName" (by decide)
          ({ s with g_summary_dict_intermittents :=
            (dictSet s.g_summary_dict_intermittents "TestName"
              (PyVal.list (names ++ [testName]))) } :
            PyState).g_summary_dict_all
        simp only [setDict, getDict]
        try simp only [] at hp
        exact hp
    | intermittents =>
      constructor
      · have hp := preservesKey_updateFailedTestInfo oneInfo
          (names ++ [testName]).length true "TestName" (by decide)
          ({ s with g_summary_dict_intermittents :=
            (dictSet s.g_summary_dict_intermittents "TestName"
              (PyVal.list (names ++ [testName]))) } :
            PyState).g_summary_dict_intermittents
        simp only [setDict, getDict]
        try simp only [] at hp
        rw [hp]
        exact dictGet?_dictSet_self _ _ _
      · simp only [setDict, getDict]

theorem addFailedTests_appends_global_intermittents_witness :
    dictGet? (PyResult.stateOf (addFailedTests Target.all rA1 (PyVal.int 0)
        sInit)).g_summary_dict_intermittents "TestName" =
      some (PyVal.list ([] ++ [PyVal.str "A"])) ∧
    dictGet? (PyResult.stateOf (addFailedTests Target.all rA1 (PyVal.int 0)
        sInit)).g_summary_dict_all "TestName" =
      dictGet? sInit.g_summary_dict_all "TestName" :=
  addFailedTests_appends_global_intermittents Target.all rA1 (PyVal.int 0)
    (PyVal.str "A") sInit [] rfl rfl rfl

/- The processing events of scanPrefixes are governed by the first
   matching prefix: none when no prefix matches, exactly the pair with
   the first matching prefix otherwise. -/
theorem scanPrefixes_eq (f : String) (ps : List String) :
    scanPrefixes f ps =
      Option.toList (Option.map (fun p => (f, p))
        (List.find? (fun p => strIn p f) ps)) := by
  induction ps with
  | nil => rfl
  | cons p rest ih =>
    by_cases hp : strIn p f
    · simp [scanPrefixes, List.find?, hp]
    · simp only [Bool.not_eq_true] at hp
      simp [scanPrefixes, List.find?, hp, ih]

theorem mem_scanPrefixes_fst (f : String) (ps : List String)
    (e : String × String) (he : e ∈ scanPrefixes f ps) : e.1 = f := by
  rw [scanPrefixes_eq] at he
  cases hfind : List.find? (fun p => strIn p f) ps with
  | none => rw [hfind] at he; simp at he
  | some p =>
    rw [hfind] at he
    simp at he
    rw [he]

theorem mem_summarizeFailedRuns_fst (onlyFiles ps : List String)
    (e : String × String) (he : e ∈ summarizeFailedRuns onlyFiles ps) :
    e.1 ∈ onlyFiles := by
  induction onlyFiles with
  | nil => simp [summarizeFailedRuns] at he
  | cons g rest ih =>
    unfold summarizeFailedRuns at he
    rw [List.mem_append] at he
    cases he with
    | inl h => rw [mem_scanPrefixes_fst g ps e h]; exact List.mem_cons_self g rest
    | inr h => exact List.mem_cons_of_mem g (ih h)

theorem countP_summarizeFailedRuns_not_mem (onlyFiles ps : List String)
    (f : String) (hf : f ∉ onlyFiles) :
    List.countP (fun e => decide (e.1 = f))
      (summarizeFailedRuns onlyFiles ps) = 0 := by
  rw [List.countP_eq_zero]
  intro e he
  simp only [decide_eq_true_eq]
  intro hef
  exact hf (hef ▸ mem_summarizeFailedRuns_fst onlyFiles ps e he)

/-- Claim C8 (confirmed): a local file whose name contains more than one
configured prefix is deserialized and merged exactly once, for the first
matching prefix in the configured order: the inner prefix loop of
summarizeFailedRuns breaks out after the first prefix that is contained in
the file name, so among the processing events there is exactly one for
that file, and every event for that file carries the first matching
prefix. -/
theorem summarizeFailedRuns_first_prefix_once (onlyFiles g_file_start :
    List String) (f : String) (hnd : onlyFiles.Nodup) (hmem : f ∈ onlyFiles)
    (hmulti : 2 ≤ (g_file_start.filter (fun p => strIn p f)).length) :
    List.countP (fun e => decide (e.1 = f))
      (summarizeFailedRuns onlyFiles g_file_start) = 1 ∧
    (∀ e ∈ summarizeFailedRuns onlyFiles g_file_start, e.1 = f →
      List.find? (fun p => strIn p f) g_file_start = some e.2) := by
  have hfind : ∃ p, List.find? (fun p => strIn p f) g_file_start = some p := by
    cases hf : List.find? (fun p => strIn p f) g_file_start with
    | some p => exact ⟨p, rfl⟩
    | none =>
      rw [List.find?_eq_none] at hf
      have : g_file_start.filter (fun p => strIn p f) = [] := by
        rw [List.filter_eq_nil_iff]
        exact hf
      rw [this] at hmulti
      simp at hmulti
  obtain ⟨p0, hp0⟩ := hfind
  constructor
  · induction onlyFiles with
    | nil => simp at hmem
    | cons g rest ih =>
      rw [List.nodup_cons] at hnd
      unfold summarizeFailedRuns
      rw [List.countP_append]
      rcases List.mem_cons.mp hmem with hgf | hfr
      · subst hgf
        have hz := countP_summarizeFailedRuns_not_mem rest g_file_start f hnd.1
        rw [hz]
        rw [scanPrefixes_eq, hp0]
        simp
      · have hgne : g ≠ f := by
          intro hh
          exact hnd.1 (hh ▸ hfr)
        have h1 : List.countP (fun e => decide (e.1 = f))
            (scanPrefixes g g_file_start) = 0 := by
          rw [List.countP_eq_zero]
          intro e he
          simp only [decide_eq_true_eq]
          intro hef
          exact hgne ((mem_scanPrefixes_fst g g_file_start e he) ▸ hef)
        rw [h1, ih hnd.2 hfr]
  · intro e he hef
    have h1 := mem_summarizeFailedRuns_fst onlyFiles g_file_start e he
    clear hmem hnd
    induction onlyFiles with
    | nil => simp [summarizeFailedRuns] at he
    | cons g rest ih =>
      unfold summarizeFailedRuns at he
      rw [List.mem_append] at he
      cases he with
      | inl h =>
        have hgf : e.1 = g := mem_scanPrefixes_fst g g_file_start e h
        rw [scanPrefixes_eq] at h
        cases hfind2 : List.find? (fun p => strIn p g) g_file_start with
        | none => rw [hfind2] at h; simp at h
        | some q =>
          rw [hfind2] at h
          simp at h
          subst h
          simp only [] at hef
          show List.find? (fun p => strIn p f) g_file_start = some q
          rw [← hef]
          exact hfind2
      | inr h => exact ih h (mem_summarizeFailedRuns_fst rest g_file_start e h)

theorem summarizeFailedRuns_first_prefix_once_witness :
    List.countP (fun e => decide (e.1 = "abc"))
      (summarizeFailedRuns ["abc"] ["a", "b"]) = 1 ∧
    (∀ e ∈ summarizeFailedRuns ["abc"] ["a", "b"], e.1 = "abc" →
      List.find? (fun p => strIn p "abc") ["a", "b"] = some e.2) :=
  summarizeFailedRuns_first_prefix_once ["abc"] ["a", "b"] "abc"
    (by decide) (by decide) (by decide)
